import Mathlib

/-!
Shallow embedding of the Pontoon frontend component
src/frontend/src/modules/entitydetails/components/EntityDetails.js.

The component methods dispatch Redux actions; we embed each method as a pure
function from the component props (and method arguments) to the list of
actions it dispatches, in dispatch order. JS objects that can be null or
undefined are embedded as Option; JS truthiness tests on them are embedded
accordingly (an object is falsy exactly when it is absent, a number when it
is zero, a string when it is empty).

The external helper utils.getOptimizedContent is not part of this file of
the repository; component behaviour is parameterised by it as a function
argument getOptimizedContent : String → String → String.
-/

namespace Pontoon

/-- A translation record of an entity, one per plural form
(fields used by EntityDetails). -/
structure Translation where
  approved : Bool
  fuzzy : Bool
  errors : List String
  warnings : List String
deriving DecidableEq, Repr

/-- A translatable entity (fields used by EntityDetails). -/
structure Entity where
  pk : Nat
  original : String
  machinery_original : String
  format : String
  translation : List Translation
deriving DecidableEq, Repr

/-- Navigation parameters derived from the current location. The entity
parameter is a numeric identifier that may be absent. -/
structure NavigationParams where
  entity : Option Nat
  locale : String
  project : String
  resource : String
deriving DecidableEq, Repr

/-- The slice of the history store state read by EntityDetails: the entity
and plural form the loaded history belongs to. -/
structure HistoryState where
  entity : Option Nat
  pluralForm : Option Int
deriving DecidableEq, Repr

/-- The slice of the other-locales store state read by EntityDetails. -/
structure LocalesState where
  entity : Option Nat
deriving DecidableEq, Repr

/-- The slice of the machinery store state read by EntityDetails. -/
structure MachineryState where
  entity : Option Nat
deriving DecidableEq, Repr

/-- The unsaved-changes store state. EntityDetails never inspects it, it
only forwards it to the unsaved-changes check action. -/
structure UnsavedChangesState where
  shown : Bool
  ignored : Bool
deriving DecidableEq, Repr

/-- The failedChecks object built by updateFailedChecks. -/
structure FailedChecks where
  clErrors : List String
  clWarnings : List String
  pErrors : List String
  pndbWarnings : List String
  ttWarnings : List String
deriving DecidableEq, Repr

/-- A change operation passed to updateTranslationStatus. -/
inductive ChangeOperation where
  | approve
  | unapprove
  | reject
  | unreject
deriving DecidableEq, Repr

/-- The actions EntityDetails can dispatch. Each constructor records the
arguments the component passes to the corresponding action creator. The
unsaved-changes check action carries the current unsaved-changes state and,
as its continuation, the list of actions the supplied closure would dispatch
when run. -/
inductive Action where
  | historyRequest (entity : Option Nat) (pluralForm : Int)
  | historyGet (entity : Option Nat) (locale : String) (pluralForm : Int)
  | otherlocalesGet (entity : Option Nat) (locale : String)
  | machineryGet (source : String) (locale : Option String) (pk : Option Nat)
  | updateFailedChecksAction (failedChecks : FailedChecks) (source : String)
  | resetFailedChecks
  | check (unsavedchanges : UnsavedChangesState) (continuation : List Action)
  | updateEntity (router : Nat) (pk : String)
  | push (path : String)
  | updateStatus (change : ChangeOperation) (entity : Option Entity)
      (locale : Option String) (resource : String) (pluralForm : Int)
      (translationId : Nat) (nextEntity : Option Entity) (router : Nat)
deriving Repr

/-- True for the two history fetch actions (request and get). -/
def Action.isHistoryFetch : Action → Bool
  | .historyRequest _ _ => true
  | .historyGet _ _ _ => true
  | _ => false

/-- True for the machinery get action. -/
def Action.isMachineryGet : Action → Bool
  | .machineryGet _ _ _ => true
  | _ => false

/-- True for an action that directly changes the entity, the route, or a
translation status, without going through the unsaved-changes guard. -/
def Action.isDirectUpdate : Action → Bool
  | .updateEntity _ _ => true
  | .push _ => true
  | .updateStatus _ _ _ _ _ _ _ _ => true
  | _ => false

/-- The props of EntityDetailsBase used by the embedded methods. The router
is embedded as an opaque token. -/
structure Props where
  activeTranslationString : String
  history : HistoryState
  locale : Option String
  machinery : MachineryState
  nextEntity : Option Entity
  previousEntity : Option Entity
  otherlocales : LocalesState
  parameters : NavigationParams
  pluralForm : Int
  router : Nat
  selectedEntity : Option Entity
  unsavedchanges : UnsavedChangesState
deriving Repr

namespace EntityDetails

/-- The translation record updateFailedChecks reads: index 0 of the entity
translation list when pluralForm is the sentinel -1, otherwise index
pluralForm (a negative index reads nothing, as in JS). -/
def activeTranslation (selectedEntity : Entity) (pluralForm : Int) :
    Option Translation :=
  let plural : Int := if pluralForm = -1 then 0 else pluralForm
  if plural < 0 then none else selectedEntity.translation.get? plural.toNat

/-- The action dispatched by updateFailedChecks for a given translation
record: publish the stored errors and warnings when the record exists, has
errors or warnings, and is approved or fuzzy; otherwise reset. -/
def failedChecksActions : Option Translation → List Action
  | some translation =>
    if (!translation.errors.isEmpty || !translation.warnings.isEmpty)
        && (translation.approved || translation.fuzzy) then
      [Action.updateFailedChecksAction
        { clErrors := translation.errors
          clWarnings := translation.warnings
          pErrors := []
          pndbWarnings := []
          ttWarnings := [] }
        "stored"]
    else
      [Action.resetFailedChecks]
  | none => [Action.resetFailedChecks]

/-- EntityDetailsBase.updateFailedChecks: dispatches nothing when no entity
is selected, otherwise publishes or resets the failed-checks editor state
according to the active plural form translation. -/
def updateFailedChecks (p : Props) : List Action :=
  match p.selectedEntity with
  | none => []
  | some selectedEntity =>
      failedChecksActions (activeTranslation selectedEntity p.pluralForm)

/-- JS truthiness of the numeric entity navigation parameter: absent and
zero are falsy. -/
def entityParamTruthy : Option Nat → Bool
  | none => false
  | some n => n != 0

/-- The history part of fetchHelpersData: request and get history when the
history slice disagrees with the current selection or the selected entity
is the next entity. -/
def historyFetchActions (p : Props) (selectedEntity : Entity) : List Action :=
  if p.history.entity ≠ some selectedEntity.pk
      ∨ p.history.pluralForm ≠ some p.pluralForm
      ∨ p.selectedEntity = p.nextEntity then
    [Action.historyRequest p.parameters.entity p.pluralForm,
     Action.historyGet p.parameters.entity p.parameters.locale p.pluralForm]
  else []

/-- The other-locales part of fetchHelpersData. -/
def otherlocalesFetchActions (p : Props) (selectedEntity : Entity) :
    List Action :=
  if p.otherlocales.entity ≠ some selectedEntity.pk then
    [Action.otherlocalesGet p.parameters.entity p.parameters.locale]
  else []

/-- The machinery part of fetchHelpersData. -/
def machineryFetchActions (getOptimizedContent : String → String → String)
    (p : Props) (selectedEntity : Entity) (loc : String) : List Action :=
  if p.machinery.entity ≠ some selectedEntity.pk then
    [Action.machineryGet
      (getOptimizedContent selectedEntity.machinery_original
        selectedEntity.format)
      (some loc) (some selectedEntity.pk)]
  else []

/-- EntityDetailsBase.fetchHelpersData: returns silently unless the entity
navigation parameter is truthy and an entity and a locale are present, then
conditionally dispatches history, other-locales and machinery fetches. -/
def fetchHelpersData (getOptimizedContent : String → String → String)
    (p : Props) : List Action :=
  match p.selectedEntity, p.locale with
  | some selectedEntity, some loc =>
      if entityParamTruthy p.parameters.entity then
        historyFetchActions p selectedEntity
          ++ otherlocalesFetchActions p selectedEntity
          ++ machineryFetchActions getOptimizedContent p selectedEntity loc
      else []
  | _, _ => []

/-- EntityDetailsBase.searchMachinery: dispatches a machinery get with the
query as source and no key; on an empty query with a selected entity, the
entity original string and key are used instead. -/
def searchMachinery (p : Props) (query : String) : List Action :=
  match p.selectedEntity with
  | some selectedEntity =>
      if query.length = 0 then
        [Action.machineryGet selectedEntity.original p.locale
          (some selectedEntity.pk)]
      else
        [Action.machineryGet query p.locale none]
  | none => [Action.machineryGet query p.locale none]

/-- EntityDetailsBase.componentDidMount: refresh failed checks and fetch
helpers data. -/
def componentDidMount (getOptimizedContent : String → String → String)
    (p : Props) : List Action :=
  updateFailedChecks p ++ fetchHelpersData getOptimizedContent p

/-- EntityDetailsBase.componentDidUpdate: refresh failed checks and fetch
helpers data when the plural form or the selected entity changed, or the
selected entity is the next entity and the active translation string
changed. -/
def componentDidUpdate (getOptimizedContent : String → String → String)
    (prevProps p : Props) : List Action :=
  if p.pluralForm ≠ prevProps.pluralForm
      ∨ p.selectedEntity ≠ prevProps.selectedEntity
      ∨ (p.selectedEntity = p.nextEntity
          ∧ p.activeTranslationString ≠ prevProps.activeTranslationString) then
    updateFailedChecks p ++ fetchHelpersData getOptimizedContent p
  else []

/-- The actions the goToNextEntity and goToPreviousEntity continuations
dispatch when run: a navigation update to the pk of the given entity. When
the entity is absent, the JS closure throws on the pk access before any
dispatch, so no action is dispatched. -/
def navUpdateEntityActions (router : Nat) : Option Entity → List Action
  | some e => [Action.updateEntity router (toString e.pk)]
  | none => []

/-- EntityDetailsBase.goToNextEntity: dispatches only the unsaved-changes
check action, carrying the navigation update as its continuation. -/
def goToNextEntity (p : Props) : List Action :=
  [Action.check p.unsavedchanges
    (navUpdateEntityActions p.router p.nextEntity)]

/-- EntityDetailsBase.goToPreviousEntity. -/
def goToPreviousEntity (p : Props) : List Action :=
  [Action.check p.unsavedchanges
    (navUpdateEntityActions p.router p.previousEntity)]

/-- EntityDetailsBase.navigateToPath. -/
def navigateToPath (p : Props) (path : String) : List Action :=
  [Action.check p.unsavedchanges [Action.push path]]

/-- EntityDetailsBase.updateTranslationStatus: dispatches only the
unsaved-changes check action, carrying the history status update as its
continuation. -/
def updateTranslationStatus (p : Props) (translationId : Nat)
    (change : ChangeOperation) : List Action :=
  [Action.check p.unsavedchanges
    [Action.updateStatus change p.selectedEntity p.locale
      p.parameters.resource p.pluralForm translationId p.nextEntity
      p.router]]

end EntityDetails

/-! Concrete values used to instantiate the theorems below. -/

/-- A concrete approved translation with one error and no warning. -/
def exampleTranslation : Translation :=
  { approved := true, fuzzy := false, errors := ["e1"], warnings := [] }

/-- A concrete entity whose single translation is exampleTranslation. -/
def exampleEntity : Entity :=
  { pk := 7
    original := "Source text"
    machinery_original := "Source text"
    format := "po"
    translation := [exampleTranslation] }

/-- Concrete navigation parameters addressing exampleEntity. -/
def exampleParams : NavigationParams :=
  { entity := some 7, locale := "de", project := "proj", resource := "res" }

/-- Concrete props with exampleEntity selected and all helper slices
stale. -/
def exampleProps : Props :=
  { activeTranslationString := "Uebersetzung"
    history := { entity := none, pluralForm := none }
    locale := some "de"
    machinery := { entity := none }
    nextEntity := none
    previousEntity := none
    otherlocales := { entity := none }
    parameters := exampleParams
    pluralForm := 0
    router := 0
    selectedEntity := some exampleEntity
    unsavedchanges := { shown := false, ignored := false } }

/-- Concrete props with no selected entity and no locale. -/
def emptyProps : Props :=
  { activeTranslationString := ""
    history := { entity := none, pluralForm := none }
    locale := none
    machinery := { entity := none }
    nextEntity := none
    previousEntity := none
    otherlocales := { entity := none }
    parameters := { entity := none, locale := "", project := "", resource := "" }
    pluralForm := -1
    router := 0
    selectedEntity := none
    unsavedchanges := { shown := false, ignored := false } }

/-- A concrete stand-in for utils.getOptimizedContent. -/
def exampleGetOptimizedContent : String → String → String :=
  fun s _ => s

/-! Helper lemmas shared by the claim theorems. -/

/-- failedChecksActions publishes when the record has errors or warnings
and is approved or fuzzy. -/
theorem failedChecksActions_pos (t : Translation)
    (he : t.errors ≠ [] ∨ t.warnings ≠ [])
    (ha : t.approved = true ∨ t.fuzzy = true) :
    EntityDetails.failedChecksActions (some t)
      = [Action.updateFailedChecksAction
          { clErrors := t.errors, clWarnings := t.warnings,
            pErrors := [], pndbWarnings := [], ttWarnings := [] }
          "stored"] := by
  simp only [EntityDetails.failedChecksActions]
  rw [if_pos]
  simp only [Bool.and_eq_true, Bool.or_eq_true, Bool.not_eq_true',
    List.isEmpty_eq_false]
  exact ⟨he, ha⟩

/-- failedChecksActions resets when the record has no errors and no
warnings, or is neither approved nor fuzzy. -/
theorem failedChecksActions_neg (t : Translation)
    (h : (t.errors = [] ∧ t.warnings = [])
        ∨ (t.approved = false ∧ t.fuzzy = false)) :
    EntityDetails.failedChecksActions (some t)
      = [Action.resetFailedChecks] := by
  simp only [EntityDetails.failedChecksActions]
  rw [if_neg]
  simp only [Bool.and_eq_true, Bool.or_eq_true, Bool.not_eq_true',
    List.isEmpty_eq_false]
  rcases h with ⟨h1, h2⟩ | ⟨h1, h2⟩
  · rintro ⟨he | hw, _⟩
    · exact he h1
    · exact hw h2
  · rintro ⟨_, ha | hf⟩
    · simp [h1] at ha
    · simp [h2] at hf

/-- C1: on every refresh of the failed-checks state with an entity
selected, if the active plural form translation record exists, has a
non-empty errors or warnings list, and is approved or fuzzy, then exactly
one action is dispatched, publishing those error and warning lists tagged
as stored; in every other case (including a record with errors that is
neither approved nor fuzzy, and a missing record) exactly the reset action
is dispatched. -/
theorem updateFailedChecks_publishes_or_resets (p : Props) (sel : Entity)
    (hsel : p.selectedEntity = some sel) :
    (∀ t, EntityDetails.activeTranslation sel p.pluralForm = some t →
      (((t.errors ≠ [] ∨ t.warnings ≠ [])
          ∧ (t.approved = true ∨ t.fuzzy = true)) →
        EntityDetails.updateFailedChecks p
          = [Action.updateFailedChecksAction
              { clErrors := t.errors, clWarnings := t.warnings,
                pErrors := [], pndbWarnings := [], ttWarnings := [] }
              "stored"])
      ∧ (((t.errors = [] ∧ t.warnings = [])
          ∨ (t.approved = false ∧ t.fuzzy = false)) →
        EntityDetails.updateFailedChecks p = [Action.resetFailedChecks]))
    ∧ (EntityDetails.activeTranslation sel p.pluralForm = none →
        EntityDetails.updateFailedChecks p = [Action.resetFailedChecks]) := by
  simp only [EntityDetails.updateFailedChecks, hsel]
  constructor
  · intro t ht
    rw [ht]
    exact ⟨fun h => failedChecksActions_pos t h.1 h.2,
      fun h => failedChecksActions_neg t h⟩
  · intro h
    rw [h]
    rfl

/-- C1 witness: exampleProps selects exampleEntity, whose active
translation is approved with one error, so the stored failed checks are
published. -/
theorem updateFailedChecks_publishes_or_resets_witness :
    exampleProps.selectedEntity = some exampleEntity
    ∧ EntityDetails.updateFailedChecks exampleProps
        = [Action.updateFailedChecksAction
            { clErrors := ["e1"], clWarnings := [],
              pErrors := [], pndbWarnings := [], ttWarnings := [] }
            "stored"] :=
  ⟨rfl,
    ((updateFailedChecks_publishes_or_resets exampleProps exampleEntity
        rfl).1 exampleTranslation rfl).1
      ⟨Or.inl (by decide), Or.inl rfl⟩⟩

/-- C8: with an entity selected, the failed-checks recomputation reads the
translation record at index 0 when the plural form selector is the
sentinel -1, and at index n for every non-negative plural form n. -/
theorem updateFailedChecks_plural_index (p : Props) (sel : Entity)
    (hsel : p.selectedEntity = some sel) :
    (p.pluralForm = -1 →
      EntityDetails.updateFailedChecks p
        = EntityDetails.failedChecksActions (sel.translation.get? 0))
    ∧ (∀ n : Nat, p.pluralForm = (n : Int) →
      EntityDetails.updateFailedChecks p
        = EntityDetails.failedChecksActions (sel.translation.get? n)) := by
  simp only [EntityDetails.updateFailedChecks, hsel]
  constructor
  · intro h
    simp only [EntityDetails.activeTranslation, h]
    norm_num
  · intro n h
    simp only [EntityDetails.activeTranslation, h]
    have hne : (n : Int) ≠ -1 := by omega
    have hnn : ¬ ((n : Int) < 0) := by omega
    simp only [if_neg hne, if_neg hnn, Int.toNat_natCast]

/-- C8 witness: at plural form 0 the record at index 0 is read. -/
theorem updateFailedChecks_plural_index_witness :
    exampleProps.selectedEntity = some exampleEntity
    ∧ EntityDetails.updateFailedChecks exampleProps
        = EntityDetails.failedChecksActions
            (exampleEntity.translation.get? 0) :=
  ⟨rfl,
    (updateFailedChecks_plural_index exampleProps exampleEntity rfl).2
      0 rfl⟩

/-- C9: when no entity is selected, the failed-checks recomputation
dispatches no action at all. -/
theorem updateFailedChecks_no_entity (p : Props)
    (h : p.selectedEntity = none) :
    EntityDetails.updateFailedChecks p = [] := by
  simp only [EntityDetails.updateFailedChecks, h]

/-- C9 witness. -/
theorem updateFailedChecks_no_entity_witness :
    emptyProps.selectedEntity = none
    ∧ EntityDetails.updateFailedChecks emptyProps = [] :=
  ⟨rfl, updateFailedChecks_no_entity emptyProps rfl⟩

/-- A string has length zero exactly when it is empty. -/
theorem string_length_zero_iff (s : String) : s.length = 0 ↔ s = "" := by
  cases s with
  | mk data =>
    simp only [String.length, List.length_eq_zero]
    constructor
    · intro h
      rw [h]
    · intro h
      rw [show data = [] from congrArg String.data h]

/-- C3: an explicit machinery search with a non-empty query dispatches a
machinery get whose source is the query verbatim with no entity key; with
an empty query and a selected entity, the dispatched source is the entity
original string, tagged with the entity key. -/
theorem searchMachinery_query_or_fallback (p : Props) (query : String) :
    (query ≠ "" →
      EntityDetails.searchMachinery p query
        = [Action.machineryGet query p.locale none])
    ∧ (∀ sel, p.selectedEntity = some sel → query = "" →
      EntityDetails.searchMachinery p query
        = [Action.machineryGet sel.original p.locale (some sel.pk)]) := by
  constructor
  · intro hq
    have hlen : ¬ (query.length = 0) := fun h =>
      hq ((string_length_zero_iff query).mp h)
    cases hsel : p.selectedEntity with
    | none => simp [EntityDetails.searchMachinery, hsel]
    | some sel => simp [EntityDetails.searchMachinery, hsel, hlen]
  · intro sel hsel hq
    subst hq
    simp [EntityDetails.searchMachinery, hsel,
      (string_length_zero_iff "").mpr rfl]

/-- C3 witness: a non-empty query is used verbatim, and the empty query
falls back to the selected entity of exampleProps. -/
theorem searchMachinery_query_or_fallback_witness :
    ("abc" ≠ ""
      ∧ EntityDetails.searchMachinery exampleProps "abc"
          = [Action.machineryGet "abc" (some "de") none])
    ∧ (exampleProps.selectedEntity = some exampleEntity
      ∧ EntityDetails.searchMachinery exampleProps ""
          = [Action.machineryGet "Source text" (some "de") (some 7)]) :=
  ⟨⟨by decide,
    (searchMachinery_query_or_fallback exampleProps "abc").1 (by decide)⟩,
   ⟨rfl,
    (searchMachinery_query_or_fallback exampleProps "").2 exampleEntity
      rfl rfl⟩⟩

/-- C10: an explicit machinery search with an empty query and no selected
entity still dispatches a machinery get, with the empty string as source
and no entity key. -/
theorem searchMachinery_empty_no_entity (p : Props)
    (h : p.selectedEntity = none) :
    EntityDetails.searchMachinery p ""
      = [Action.machineryGet "" p.locale none] := by
  simp [EntityDetails.searchMachinery, h]

/-- C10 witness. -/
theorem searchMachinery_empty_no_entity_witness :
    emptyProps.selectedEntity = none
    ∧ EntityDetails.searchMachinery emptyProps ""
        = [Action.machineryGet "" none none] :=
  ⟨rfl, searchMachinery_empty_no_entity emptyProps rfl⟩

/-- C4: when the entity navigation parameter is absent, or no entity is
selected, or no locale is available, the helpers-data fetch routine
dispatches no action at all. -/
theorem fetchHelpersData_skips_silently
    (getOptimizedContent : String → String → String) (p : Props)
    (h : p.parameters.entity = none ∨ p.selectedEntity = none
        ∨ p.locale = none) :
    EntityDetails.fetchHelpersData getOptimizedContent p = [] := by
  cases hsel : p.selectedEntity with
  | none => simp [EntityDetails.fetchHelpersData, hsel]
  | some sel =>
    cases hloc : p.locale with
    | none => simp [EntityDetails.fetchHelpersData, hsel, hloc]
    | some loc =>
      rcases h with h | h | h
      · simp [EntityDetails.fetchHelpersData, hsel, hloc, h,
          EntityDetails.entityParamTruthy]
      · rw [hsel] at h
        simp at h
      · rw [hloc] at h
        simp at h

/-- C4 witness: emptyProps has no selected entity and no locale. -/
theorem fetchHelpersData_skips_silently_witness :
    emptyProps.selectedEntity = none
    ∧ EntityDetails.fetchHelpersData exampleGetOptimizedContent emptyProps
        = [] :=
  ⟨rfl,
    fetchHelpersData_skips_silently exampleGetOptimizedContent emptyProps
      (Or.inr (Or.inl rfl))⟩

/-- C5: with the fetch preconditions met, the history request and get
actions are dispatched exactly when the history slice records a different
entity, or a different plural form, or the selected entity is the next
entity. -/
theorem fetchHelpersData_history_iff
    (getOptimizedContent : String → String → String) (p : Props)
    (sel : Entity) (loc : String)
    (hsel : p.selectedEntity = some sel) (hloc : p.locale = some loc)
    (hparam : EntityDetails.entityParamTruthy p.parameters.entity = true) :
    (Action.historyRequest p.parameters.entity p.pluralForm
        ∈ EntityDetails.fetchHelpersData getOptimizedContent p
      ∧ Action.historyGet p.parameters.entity p.parameters.locale
          p.pluralForm
        ∈ EntityDetails.fetchHelpersData getOptimizedContent p)
    ↔ (p.history.entity ≠ some sel.pk
        ∨ p.history.pluralForm ≠ some p.pluralForm
        ∨ p.selectedEntity = p.nextEntity) := by
  simp only [EntityDetails.fetchHelpersData, hsel, hloc, hparam, if_true]
  unfold EntityDetails.historyFetchActions
    EntityDetails.otherlocalesFetchActions
    EntityDetails.machineryFetchActions
  rw [hsel]
  by_cases hc : p.history.entity ≠ some sel.pk
      ∨ p.history.pluralForm ≠ some p.pluralForm
      ∨ (some sel : Option Entity) = p.nextEntity
  · rw [if_pos hc]
    refine iff_of_true ⟨?_, ?_⟩ hc <;> simp
  · rw [if_neg hc]
    refine iff_of_false ?_ hc
    by_cases h2 : p.otherlocales.entity ≠ some sel.pk <;>
      by_cases h3 : p.machinery.entity ≠ some sel.pk <;>
      simp [h2, h3]

/-- C5 witness: in exampleProps the history slice records no entity, so
both history actions are dispatched. -/
theorem fetchHelpersData_history_iff_witness :
    (exampleProps.selectedEntity = some exampleEntity
      ∧ exampleProps.locale = some "de"
      ∧ EntityDetails.entityParamTruthy exampleProps.parameters.entity
          = true)
    ∧ (Action.historyRequest (some 7) 0
        ∈ EntityDetails.fetchHelpersData exampleGetOptimizedContent
            exampleProps
      ∧ Action.historyGet (some 7) "de" 0
        ∈ EntityDetails.fetchHelpersData exampleGetOptimizedContent
            exampleProps) :=
  ⟨⟨rfl, rfl, rfl⟩,
    (fetchHelpersData_history_iff exampleGetOptimizedContent exampleProps
        exampleEntity "de" rfl rfl rfl).mpr
      (Or.inl (by decide))⟩

/-- C6: with the fetch preconditions met, the other-locales get is
dispatched exactly when the other-locales slice records a different
entity, and the machinery get is dispatched exactly when the machinery
slice records a different entity, in which case it is the single machinery
action of the batch and its source is the optimized-content derivation of
the entity machinery source text and format, tagged with the entity
key. -/
theorem fetchHelpersData_otherlocales_machinery
    (getOptimizedContent : String → String → String) (p : Props)
    (sel : Entity) (loc : String)
    (hsel : p.selectedEntity = some sel) (hloc : p.locale = some loc)
    (hparam : EntityDetails.entityParamTruthy p.parameters.entity = true) :
    ((Action.otherlocalesGet p.parameters.entity p.parameters.locale
        ∈ EntityDetails.fetchHelpersData getOptimizedContent p)
      ↔ p.otherlocales.entity ≠ some sel.pk)
    ∧ ((EntityDetails.fetchHelpersData getOptimizedContent p).filter
          Action.isMachineryGet
        = if p.machinery.entity ≠ some sel.pk then
            [Action.machineryGet
              (getOptimizedContent sel.machinery_original sel.format)
              (some loc) (some sel.pk)]
          else []) := by
  simp only [EntityDetails.fetchHelpersData, hsel, hloc, hparam, if_true]
  unfold EntityDetails.historyFetchActions
    EntityDetails.otherlocalesFetchActions
    EntityDetails.machineryFetchActions
  rw [hsel]
  by_cases h1 : p.history.entity ≠ some sel.pk
        ∨ p.history.pluralForm ≠ some p.pluralForm
        ∨ (some sel : Option Entity) = p.nextEntity <;>
    by_cases h2 : p.otherlocales.entity ≠ some sel.pk <;>
    by_cases h3 : p.machinery.entity ≠ some sel.pk <;>
    simp [h1, h2, h3, Action.isMachineryGet]

/-- C6 witness: in exampleProps both slices record no entity, so the
other-locales get is dispatched and the machinery batch is the single
optimized machinery get. -/
theorem fetchHelpersData_otherlocales_machinery_witness :
    (exampleProps.selectedEntity = some exampleEntity
      ∧ exampleProps.locale = some "de"
      ∧ EntityDetails.entityParamTruthy exampleProps.parameters.entity
          = true
      ∧ exampleProps.otherlocales.entity ≠ some 7)
    ∧ Action.otherlocalesGet (some 7) "de"
        ∈ EntityDetails.fetchHelpersData exampleGetOptimizedContent
            exampleProps :=
  ⟨⟨rfl, rfl, rfl, by decide⟩,
    (fetchHelpersData_otherlocales_machinery exampleGetOptimizedContent
        exampleProps exampleEntity "de" rfl rfl rfl).1.mpr (by decide)⟩

/-- C2: on an update, the failed-checks refresh and the helpers-data fetch
run, producing the same actions as on mount, exactly when the plural form
changed, the selected entity changed, or the selected entity is the next
entity and the active translation string changed; when none of these hold
no action is dispatched; and on mount both routines run
unconditionally. -/
theorem componentDidUpdate_refresh_policy
    (getOptimizedContent : String → String → String) (prevProps p : Props) :
    ((p.pluralForm ≠ prevProps.pluralForm
        ∨ p.selectedEntity ≠ prevProps.selectedEntity
        ∨ (p.selectedEntity = p.nextEntity
            ∧ p.activeTranslationString
                ≠ prevProps.activeTranslationString)) →
      EntityDetails.componentDidUpdate getOptimizedContent prevProps p
        = EntityDetails.updateFailedChecks p
            ++ EntityDetails.fetchHelpersData getOptimizedContent p)
    ∧ ((p.pluralForm = prevProps.pluralForm
        ∧ p.selectedEntity = prevProps.selectedEntity
        ∧ (p.selectedEntity = p.nextEntity →
            p.activeTranslationString
              = prevProps.activeTranslationString)) →
      EntityDetails.componentDidUpdate getOptimizedContent prevProps p
        = [])
    ∧ EntityDetails.componentDidMount getOptimizedContent p
        = EntityDetails.updateFailedChecks p
            ++ EntityDetails.fetchHelpersData getOptimizedContent p := by
  refine ⟨fun h => ?_, fun h => ?_, rfl⟩
  · unfold EntityDetails.componentDidUpdate
    rw [if_pos h]
  · unfold EntityDetails.componentDidUpdate
    rw [if_neg]
    rintro (h1 | h2 | ⟨h3, h4⟩)
    · exact h1 h.1
    · exact h2 h.2.1
    · exact h4 (h.2.2 h3)

/-- C2 witness: an update that changes nothing dispatches no action. -/
theorem componentDidUpdate_refresh_policy_witness :
    (exampleProps.pluralForm = exampleProps.pluralForm
      ∧ exampleProps.selectedEntity = exampleProps.selectedEntity
      ∧ (exampleProps.selectedEntity = exampleProps.nextEntity →
          exampleProps.activeTranslationString
            = exampleProps.activeTranslationString))
    ∧ EntityDetails.componentDidUpdate exampleGetOptimizedContent
        exampleProps exampleProps = [] :=
  ⟨⟨rfl, rfl, fun _ => rfl⟩,
    (componentDidUpdate_refresh_policy exampleGetOptimizedContent
        exampleProps exampleProps).2.1 ⟨rfl, rfl, fun _ => rfl⟩⟩

/-- C7: the next-entity, previous-entity, arbitrary-path and
translation-status actions each dispatch exactly one action: the
unsaved-changes check carrying the current unsaved-changes state, with the
navigation or status update only inside its continuation; no direct
navigation or status update action is dispatched. -/
theorem guarded_navigation_and_status (p : Props) (path : String)
    (translationId : Nat) (change : ChangeOperation) :
    EntityDetails.goToNextEntity p
      = [Action.check p.unsavedchanges
          (EntityDetails.navUpdateEntityActions p.router p.nextEntity)]
    ∧ EntityDetails.goToPreviousEntity p
      = [Action.check p.unsavedchanges
          (EntityDetails.navUpdateEntityActions p.router p.previousEntity)]
    ∧ EntityDetails.navigateToPath p path
      = [Action.check p.unsavedchanges [Action.push path]]
    ∧ EntityDetails.updateTranslationStatus p translationId change
      = [Action.check p.unsavedchanges
          [Action.updateStatus change p.selectedEntity p.locale
            p.parameters.resource p.pluralForm translationId p.nextEntity
            p.router]]
    ∧ (∀ a ∈ EntityDetails.goToNextEntity p,
        Action.isDirectUpdate a = false)
    ∧ (∀ a ∈ EntityDetails.goToPreviousEntity p,
        Action.isDirectUpdate a = false)
    ∧ (∀ a ∈ EntityDetails.navigateToPath p path,
        Action.isDirectUpdate a = false)
    ∧ (∀ a ∈ EntityDetails.updateTranslationStatus p translationId change,
        Action.isDirectUpdate a = false) := by
  refine ⟨rfl, rfl, rfl, rfl, ?_, ?_, ?_, ?_⟩ <;>
    · simp only [EntityDetails.goToNextEntity,
        EntityDetails.goToPreviousEntity, EntityDetails.navigateToPath,
        EntityDetails.updateTranslationStatus, List.mem_singleton]
      rintro a rfl
      rfl

/-- C7 witness: going to the next entity from exampleProps dispatches only
the guard action. -/
theorem guarded_navigation_and_status_witness :
    EntityDetails.goToNextEntity exampleProps
      = [Action.check exampleProps.unsavedchanges
          (EntityDetails.navUpdateEntityActions exampleProps.router
            exampleProps.nextEntity)] :=
  (guarded_navigation_and_status exampleProps "/de/proj/res/" 1
      ChangeOperation.approve).1

end Pontoon
